import Mathlib

/-!
Shallow embedding of the civo-csi driver's controller, node and hook logic.

Each definition below is translated from a named Go function of the civo-csi
repository (the source file and function are given in the doc comment).
External effects (provider API calls, Kubernetes API calls, disk operations)
are passed in explicitly as call-by-call results, so every RPC handler
becomes a pure function from its request and the observed call results to
its gRPC outcome, together with flags recording which state-mutating
provider calls were issued.
-/

namespace CivoCSI

/-- gRPC status codes used by the embedded handlers
(google.golang.org/grpc/codes). -/
inductive Code where
  | invalidArgument
  | notFound
  | alreadyExists
  | outOfRange
  | unavailable
  | internalErr
  | aborted
  | failedPrecondition
  deriving DecidableEq, Repr

/-- Errors returned by the Civo provider client (civogo).  The Go code
pattern-matches sentinel substrings of the error text
(DatabaseVolumeNotFoundError, ZeroMatchesError); the sentinel kinds are
modelled as constructors, any other provider error keeps its message. -/
inductive CivoErr where
  | databaseVolumeNotFound
  | zeroMatches
  | other (msg : String)
  deriving DecidableEq, Repr

/-- The error text the Go caller sees; the sentinel kinds produce text
containing the sentinel substring, other errors do not. -/
def CivoErr.message : CivoErr → String
  | .databaseVolumeNotFound => "DatabaseVolumeNotFoundError"
  | .zeroMatches => "ZeroMatchesError"
  | .other msg => msg

/-- An error returned by a CSI RPC handler: either a gRPC status error
built with status.Error / status.Errorf, or a plain Go error returned
as-is (which the gRPC layer surfaces with code Unknown, not with a chosen
status code). -/
inductive RPCErr where
  | grpcStatus (c : Code) (msg : String)
  | plain (msg : String)
  deriving DecidableEq, Repr

/-- Result of one embedded RPC handler: a success value, an error, or a Go
panic (nil-pointer dereference). -/
inductive Outcome (α : Type) where
  | ok (a : α)
  | err (e : RPCErr)
  | panics
  deriving DecidableEq, Repr

/-- pkg/driver/controller_server.go: BytesInGigabyte. -/
def BytesInGigabyte : Int := 1024 * 1024 * 1024

/-- pkg/driver/driver.go: DefaultVolumeSizeGB. -/
def DefaultVolumeSizeGB : Int := 10

/-- pkg/driver/controller_server.go: CivoVolumeAvailableRetries. -/
def CivoVolumeAvailableRetries : Nat := 20

/-- civogo.Volume restricted to the fields the driver reads. -/
structure Volume where
  id : String
  name : String
  sizeGigabytes : Int
  status : String
  instanceID : String
  clusterID : String
  deriving DecidableEq, Repr

/-- civogo.Quota fields used by CreateVolume / GetCapacity. -/
structure Quota where
  diskGigabytesLimit : Int
  diskGigabytesUsage : Int
  diskVolumeCountLimit : Int
  diskVolumeCountUsage : Int
  deriving DecidableEq, Repr

/-- civogo.VolumeConfig as built by CreateVolume (the Go field Namespace is
called namespaceField here because namespace is a Lean keyword). -/
structure VolumeConfig where
  name : String
  region : String
  namespaceField : String
  clusterID : String
  sizeGigabytes : Int
  snapshotID : String
  deriving DecidableEq, Repr

/-- Driver configuration fields the embedded handlers read
(pkg/driver/driver.go: Driver). -/
structure Driver where
  region : String
  namespaceField : String
  clusterID : String
  testMode : Bool
  deriving DecidableEq, Repr

/-- csi.VolumeCapability_AccessMode_Mode, restricted to what the admission
checks distinguish. -/
inductive AccessMode where
  | singleNodeWriter
  | singleNodeReaderOnly
  | unsupported
  deriving DecidableEq, Repr

/-- One csi.VolumeCapability: its access mode and whether its access type
is the Block variant. -/
structure VolumeCapability where
  accessMode : AccessMode
  isBlock : Bool
  deriving DecidableEq, Repr

/-- supportedAccessModes (pkg/driver/controller_server.go): membership in
the supported-access-mode set. -/
def supportedAccessMode : AccessMode → Bool
  | .singleNodeWriter => true
  | .singleNodeReaderOnly => true
  | .unsupported => false

/-- csi.CapacityRange. -/
structure CapacityRange where
  requiredBytes : Int
  limitBytes : Int
  deriving DecidableEq, Repr

/-- req.GetVolumeContentSource() as CreateVolume inspects it: absent, a
non-snapshot type, a snapshot type whose Snapshot field is nil, or a
snapshot carrying an ID string (possibly empty). -/
inductive ContentSource where
  | absent
  | notSnapshot
  | snapshotNil
  | snapshotWith (id : String)
  deriving DecidableEq, Repr

/-- csi.CreateVolumeRequest fields read by CreateVolume. -/
structure CreateVolumeRequest where
  name : String
  volumeCapabilities : List VolumeCapability
  capacityRange : Option CapacityRange
  contentSource : ContentSource
  deriving DecidableEq, Repr

/-- pkg/driver/controller_server.go: getVolSizeInBytes (its error result is
always nil in the source, so the embedding is total): default size when the
capacity range is absent, else RequiredBytes falling back to LimitBytes
when RequiredBytes is zero. -/
def getVolSizeInBytes : Option CapacityRange → Int
  | none => DefaultVolumeSizeGB * BytesInGigabyte
  | some capRange =>
    if capRange.requiredBytes = 0 then capRange.limitBytes else capRange.requiredBytes

/-- The size computation shared by CreateVolume and ControllerExpandVolume:
desiredSize := bytes / BytesInGigabyte with Go's truncating int64 division,
incremented when the (truncating) remainder is non-zero. -/
def desiredSizeGB (bytes : Int) : Int :=
  bytes.tdiv BytesInGigabyte + (if bytes.tmod BytesInGigabyte ≠ 0 then 1 else 0)

/-- Result of Driver.waitForVolumeStatus: the loop returned (true, nil)
(status reached, or TestMode short-circuit), a GetVolume call inside the
loop failed (the error is returned unchanged), or the retry budget was
exhausted and the loop returned (false, fmt.Errorf(...)) mentioning the
status of the last volume it fetched.  With a retry budget of zero the Go
code would dereference a nil volume pointer when building that message,
recorded as lastSeen = none. -/
inductive WaitResult where
  | reached
  | getErr (e : CivoErr)
  | exhausted (lastSeen : Option String)
  deriving DecidableEq, Repr

/-- The polling loop of waitForVolumeStatus: on iteration i it calls
GetVolume, whose result is given by the trace getVolume i. -/
def waitLoop (getVolume : Nat → Except CivoErr Volume) (desiredStatus : String) :
    Nat → Nat → Option String → WaitResult
  | 0, _, lastSeen => .exhausted lastSeen
  | fuel + 1, i, _ =>
    match getVolume i with
    | .error e => .getErr e
    | .ok v =>
      if v.status = desiredStatus then .reached
      else waitLoop getVolume desiredStatus fuel (i + 1) (some v.status)

/-- pkg/driver/controller_server.go: Driver.waitForVolumeStatus. -/
def waitForVolumeStatus (d : Driver) (getVolume : Nat → Except CivoErr Volume)
    (desiredStatus : String) (retries : Nat) : WaitResult :=
  if d.testMode then .reached else waitLoop getVolume desiredStatus retries 0 none

/-- The plain (non-status) error text waitForVolumeStatus returns on
exhaustion. -/
def waitExhaustedMsg (desiredStatus lastSeen : String) : String :=
  "volume isn't " ++ desiredStatus ++ ", state is currently " ++ lastSeen

/-- csi.CreateVolumeResponse fields the driver sets. -/
structure CreateVolumeResponse where
  volumeId : String
  capacityBytes : Int
  deriving DecidableEq, Repr

/-- The provider-call results CreateVolume can observe, one field per call
site in program order; pollVolume id i is the volume returned by the i-th
GetVolume poll for volume id inside waitForVolumeStatus. -/
structure CreateEnv where
  listVolumes : Except CivoErr (List Volume)
  getQuota : Except CivoErr Quota
  newVolume : VolumeConfig → Except CivoErr Volume
  getVolume : String → Except CivoErr Volume
  pollVolume : String → Nat → Except CivoErr Volume

/-- The capability admission loop at the top of CreateVolume: the first
failing capability determines the error (access-mode check before
block-type check, per capability). -/
def checkCapabilities : List VolumeCapability → Option RPCErr
  | [] => none
  | cap :: rest =>
    if ¬ supportedAccessMode cap.accessMode then
      some (.grpcStatus .invalidArgument "CreateVolume access mode isn't supported")
    else if cap.isBlock then
      some (.grpcStatus .invalidArgument "CreateVolume block types aren't supported, only mount types")
    else checkCapabilities rest

/-- The volume-content-source admission block of CreateVolume, returning
the snapshot ID passed to the create call. -/
def snapshotIDFromSource : ContentSource → Except RPCErr String
  | .absent => .ok ""
  | .notSnapshot => .error (.grpcStatus .invalidArgument "Unsupported volumeContentSource type")
  | .snapshotNil => .error (.grpcStatus .invalidArgument "Volume content source type is set to Snapshot, but the Snapshot is not provided")
  | .snapshotWith id =>
    if id = "" then
      .error (.grpcStatus .invalidArgument "Volume content source type is set to Snapshot, but the SnapshotID is not provided")
    else .ok id

/-- pkg/driver/controller_server.go: Driver.CreateVolume.  Returns the RPC
outcome together with a flag recording whether the provider NewVolume
(create_volume) call was issued. -/
def createVolume (d : Driver) (env : CreateEnv) (req : CreateVolumeRequest) :
    Outcome CreateVolumeResponse × Bool :=
  if req.name = "" then
    (.err (.grpcStatus .invalidArgument "CreateVolume Name must be provided"), false)
  else if req.volumeCapabilities = [] then
    (.err (.grpcStatus .invalidArgument "CreateVolume Volume capabilities must be provided"), false)
  else
    match checkCapabilities req.volumeCapabilities with
    | some e => (.err e, false)
    | none =>
      let bytes := getVolSizeInBytes req.capacityRange
      let desiredSize := desiredSizeGB bytes
      match env.listVolumes with
      | .error e => (.err (.plain e.message), false)
      | .ok volumes =>
        match volumes.find? (fun v => v.name = req.name) with
        | some v =>
          if v.sizeGigabytes ≠ desiredSize then
            (.err (.grpcStatus .alreadyExists "Volume already exists with a differnt size"), false)
          else
            match waitForVolumeStatus d (env.pollVolume v.id) "available" CivoVolumeAvailableRetries with
            | .getErr e => (.err (.plain e.message), false)
            | .exhausted none => (.panics, false)
            | .exhausted (some lastSeen) =>
              (.err (.plain (waitExhaustedMsg "available" lastSeen)), false)
            | .reached =>
              (.ok { volumeId := v.id, capacityBytes := v.sizeGigabytes * BytesInGigabyte }, false)
        | none =>
          match snapshotIDFromSource req.contentSource with
          | .error e => (.err e, false)
          | .ok snapshotID =>
            match env.getQuota with
            | .error e => (.err (.plain e.message), false)
            | .ok quota =>
              let availableSize := quota.diskGigabytesLimit - quota.diskGigabytesUsage
              if availableSize < desiredSize then
                (.err (.grpcStatus .outOfRange ("Requested volume would exceed volume space quota by " ++ toString (desiredSize - availableSize) ++ " GB")), false)
              else if quota.diskVolumeCountUsage ≥ quota.diskVolumeCountLimit then
                (.err (.grpcStatus .outOfRange ("Requested volume would exceed volume count limit quota of " ++ toString quota.diskVolumeCountLimit)), false)
              else
                match env.newVolume { name := req.name, region := d.region, namespaceField := d.namespaceField, clusterID := d.clusterID, sizeGigabytes := desiredSize, snapshotID := snapshotID } with
                | .error e => (.err (.plain e.message), true)
                | .ok result =>
                  match env.getVolume result.id with
                  | .error e => (.err (.plain e.message), true)
                  | .ok volume =>
                    match waitForVolumeStatus d (env.pollVolume volume.id) "available" CivoVolumeAvailableRetries with
                    | .getErr e => (.err (.plain e.message), true)
                    | .exhausted none => (.panics, true)
                    | .exhausted (some lastSeen) =>
                      (.err (.plain (waitExhaustedMsg "available" lastSeen)), true)
                    | .reached =>
                      (.ok { volumeId := volume.id, capacityBytes := desiredSize * BytesInGigabyte }, true)

/-- The provider-call results ControllerPublishVolume can observe:
GetKubernetesCluster (reduced to its instance IDs), the first GetVolume,
the AttachVolume call, and the post-sleep GetVolume re-read. -/
structure PublishEnv where
  clusterInstances : Except CivoErr (List String)
  getVolume : Except CivoErr Volume
  attachVolume : Except CivoErr Unit
  refetchVolume : Except CivoErr Volume

/-- csi.ControllerPublishVolumeRequest fields read by the handler. -/
structure ControllerPublishVolumeRequest where
  volumeId : String
  nodeId : String
  hasVolumeCapability : Bool
  deriving DecidableEq, Repr

/-- The settle phase of ControllerPublishVolume: after the fixed sleep the
volume is re-fetched and must be attached to the requested node. -/
def publishSettle (env : PublishEnv) (req : ControllerPublishVolumeRequest) : Outcome Unit :=
  match env.refetchVolume with
  | .error e => .err (.plain e.message)
  | .ok volume =>
    if volume.status ≠ "attached" then
      .err (.grpcStatus .unavailable ("Volume " ++ volume.id ++ " is not attached to the requested instance, state is currently " ++ volume.status))
    else if volume.instanceID ≠ req.nodeId then
      .err (.grpcStatus .unavailable ("Volume " ++ volume.id ++ " is not attached to the requested instance " ++ req.nodeId ++ ", instance id is currently " ++ volume.instanceID))
    else .ok ()

/-- pkg/driver/controller_server.go: Driver.ControllerPublishVolume.
Returns the RPC outcome together with a flag recording whether the
provider AttachVolume call was issued.  The attach is skipped exactly when
InstanceID == NodeId && Status != "attaching", as in the source (whose
comment in that branch says the volume is already attaching). -/
def controllerPublishVolume (env : PublishEnv) (req : ControllerPublishVolumeRequest) :
    Outcome Unit × Bool :=
  if ¬ req.hasVolumeCapability then
    (.err (.grpcStatus .invalidArgument "must provide a VolumeCapability to ControllerPublishVolume"), false)
  else if req.volumeId = "" then
    (.err (.grpcStatus .invalidArgument "must provide a VolumeId to ControllerPublishVolume"), false)
  else if req.nodeId = "" then
    (.err (.grpcStatus .invalidArgument "must provide a NodeId to ControllerPublishVolume"), false)
  else
    match env.clusterInstances with
    | .error e => (.err (.grpcStatus .internalErr ("unable to connect to Civo Api. error: " ++ e.message)), false)
    | .ok instances =>
      if ¬ instances.contains req.nodeId then
        (.err (.grpcStatus .notFound "Unable to find instance to attach volume to"), false)
      else
        match env.getVolume with
        | .error e => (.err (.plain e.message), false)
        | .ok volume =>
          if volume.instanceID = req.nodeId ∧ volume.status = "attached" then
            (.ok (), false)
          else if volume.status ≠ "available" ∧ volume.instanceID ≠ req.nodeId then
            (.err (.grpcStatus .unavailable ("Volume " ++ volume.id ++ " is not available to be attached, state is currently " ++ volume.status)), false)
          else if volume.instanceID = req.nodeId ∧ volume.status ≠ "attaching" then
            (publishSettle env req, false)
          else
            match env.attachVolume with
            | .error e => (.err (.plain e.message), true)
            | .ok _ => (publishSettle env req, true)

/-- The provider-call results ControllerUnpublishVolume can observe. -/
structure UnpublishEnv where
  getVolume : Except CivoErr Volume
  detachVolume : Except CivoErr Unit
  refetchVolume : Except CivoErr Volume

/-- csi.ControllerUnpublishVolumeRequest fields read by the handler. -/
structure ControllerUnpublishVolumeRequest where
  volumeId : String
  nodeId : String
  deriving DecidableEq, Repr

/-- Whether the Go sentinel test on the GetVolume error matches:
strings.Contains(err, DatabaseVolumeNotFoundError) or
strings.Contains(err, ZeroMatchesError). -/
def CivoErr.isGone : CivoErr → Bool
  | .databaseVolumeNotFound => true
  | .zeroMatches => true
  | .other _ => false

/-- The settle phase of ControllerUnpublishVolume: after the fixed sleep
the volume is re-fetched and must be available again. -/
def unpublishSettle (env : UnpublishEnv) (req : ControllerUnpublishVolumeRequest) : Outcome Unit :=
  match env.refetchVolume with
  | .error e => .err (.plain e.message)
  | .ok volume =>
    if volume.status = "available" then .ok ()
    else .err (.grpcStatus .unavailable ("Civo Volume " ++ req.volumeId ++ " did not go back to available, state is currently " ++ volume.status))

/-- pkg/driver/controller_server.go: Driver.ControllerUnpublishVolume.
Returns the RPC outcome together with a flag recording whether the
provider DetachVolume call was issued. -/
def controllerUnpublishVolume (env : UnpublishEnv) (req : ControllerUnpublishVolumeRequest) :
    Outcome Unit × Bool :=
  if req.volumeId = "" then
    (.err (.grpcStatus .invalidArgument "must provide a VolumeId to ControllerUnpublishVolume"), false)
  else
    match env.getVolume with
    | .error e =>
      if e.isGone then (.ok (), false) else (.err (.plain e.message), false)
    | .ok volume =>
      if volume.status = "available" then (.ok (), false)
      else if volume.instanceID ≠ req.nodeId then (.ok (), false)
      else if volume.status ≠ "detaching" then
        match env.detachVolume with
        | .error e => (.err (.plain e.message), true)
        | .ok _ => (unpublishSettle env req, true)
      else (unpublishSettle env req, false)

/-- The provider-call results ControllerExpandVolume can observe. -/
structure ExpandEnv where
  getVolume : Except CivoErr Volume
  resizeVolume : Except CivoErr Unit
  pollVolume : Nat → Except CivoErr Volume
  refetchVolume : Except CivoErr Volume

/-- csi.ControllerExpandVolumeRequest fields read by the handler. -/
structure ControllerExpandVolumeRequest where
  volumeId : String
  capacityRange : Option CapacityRange
  deriving DecidableEq, Repr

/-- csi.ControllerExpandVolumeResponse fields the driver sets. -/
structure ControllerExpandVolumeResponse where
  capacityBytes : Int
  nodeExpansionRequired : Bool
  deriving DecidableEq, Repr

/-- pkg/driver/controller_server.go: Driver.ControllerExpandVolume.  Both
results of the ResizeVolume call are discarded by the source (the wildcard
match below); the error of the final GetVolume is discarded as well, which
leaves a nil volume pointer, so the following SizeGigabytes field access
panics.  Returns the outcome together with a flag recording whether
ResizeVolume was issued. -/
def controllerExpandVolume (d : Driver) (env : ExpandEnv) (req : ControllerExpandVolumeRequest) :
    Outcome ControllerExpandVolumeResponse × Bool :=
  if req.volumeId = "" then
    (.err (.grpcStatus .invalidArgument "must provide a VolumeId to ControllerExpandVolume"), false)
  else
    match env.getVolume with
    | .error e => (.err (.grpcStatus .internalErr ("ControllerExpandVolume could not retrieve existing volume: " ++ e.message)), false)
    | .ok volume =>
      match req.capacityRange with
      | none => (.err (.grpcStatus .invalidArgument "must provide a capacity range to ControllerExpandVolume"), false)
      | some capRange =>
        let desiredSize := desiredSizeGB (getVolSizeInBytes (some capRange))
        if volume.status = "resizing" then
          (.err (.grpcStatus .aborted "volume is already being resized"), false)
        else if desiredSize ≤ volume.sizeGigabytes then
          (.ok { capacityBytes := volume.sizeGigabytes * BytesInGigabyte, nodeExpansionRequired := true }, false)
        else if volume.status ≠ "available" then
          (.err (.grpcStatus .failedPrecondition "volume is not in an availble state for OFFLINE expansion"), false)
        else
          match env.resizeVolume with
          | _ =>
            match waitForVolumeStatus d env.pollVolume "available" (CivoVolumeAvailableRetries * 2) with
            | .getErr e => (.err (.plain e.message), true)
            | .exhausted none => (.panics, true)
            | .exhausted (some lastSeen) =>
              (.err (.plain (waitExhaustedMsg "available" lastSeen)), true)
            | .reached =>
              match env.refetchVolume with
              | .error _ => (.panics, true)
              | .ok v2 => (.ok { capacityBytes := v2.sizeGigabytes * BytesInGigabyte, nodeExpansionRequired := true }, true)

/-- pkg/driver/hanging-volume.go: the orphan-selection phase of
Driver.FixHangingVolume, producing the IDs appended to volumeIDsToDelete
given the listed provider volumes and the listed PersistentVolume names.
The source runs the selection only under the guard
len(pvs.Items) != len(volumes). -/
def hangingVolumeIDsToDelete (clusterID : String) (volumes : List Volume)
    (pvNames : List String) : List String :=
  if pvNames.length ≠ volumes.length then
    (volumes.filter (fun v => ¬ pvNames.contains v.name ∧ v.clusterID = clusterID)).map (fun v => v.id)
  else []

/-- pkg/driver/hanging-volume.go: the deletion loop of FixHangingVolume.
Returns the IDs for which DeleteVolume was actually called, and the error
FixHangingVolume returns (the loop returns at the first failing delete). -/
def deleteHangingVolumes (deleteVolume : String → Except CivoErr Unit) :
    List String → List String × Option CivoErr
  | [] => ([], none)
  | id :: rest =>
    match deleteVolume id with
    | .error e => ([id], some e)
    | .ok _ =>
      let next := deleteHangingVolumes deleteVolume rest
      (id :: next.1, next.2)

/-- The external-call results FixHangingVolume can observe: the provider
volume list, the PersistentVolume names from the Kubernetes API, and the
per-ID DeleteVolume results. -/
structure HangingEnv where
  listVolumes : Except CivoErr (List Volume)
  listPVNames : Except String (List String)
  deleteVolume : String → Except CivoErr Unit

/-- pkg/driver/hanging-volume.go: Driver.FixHangingVolume.  Returns the
error result (none on success) and the volume IDs for which DeleteVolume
was called. -/
def fixHangingVolume (clusterID : String) (env : HangingEnv) :
    Option String × List String :=
  match env.listVolumes with
  | .error e => (some e.message, [])
  | .ok volumes =>
    match env.listPVNames with
    | .error e => (some e, [])
    | .ok pvNames =>
      let ids := hangingVolumeIDsToDelete clusterID volumes pvNames
      let res := deleteHangingVolumes env.deleteVolume ids
      (res.2.map CivoErr.message, res.1)

/-- The taint key the drain check looks for (v1.TaintNodeUnschedulable,
the taint kubectl drain places). -/
def TaintNodeUnschedulable : String := "node.kubernetes.io/unschedulable"

/-- v1.Node restricted to what isNodeDrained reads: its taint keys. -/
structure KubeNode where
  taints : List String
  deriving DecidableEq, Repr

/-- pkg/driver/hook/prestop.go: isNodeDrained — the node carries the
unschedulable drain taint. -/
def isNodeDrained (node : KubeNode) : Bool :=
  node.taints.any (fun t => t = TaintNodeUnschedulable)

/-- The result of the client-go Nodes().Get call as PreStop observes it.
On any error client-go still hands back a non-nil empty node object (the
generated client initialises the result before decoding), which is what the
drain check then runs on in the not-found case. -/
inductive GetNodeResult where
  | found (node : KubeNode)
  | notFoundErr
  | otherErr (msg : String)
  deriving DecidableEq, Repr

/-- What PreStop does after the node lookup: return the lookup error,
return nil without the VolumeAttachment check, or go on to
waitForVolumeAttachmentsCleanup. -/
inductive PreStopAction where
  | returnsErr (msg : String)
  | skipsAttachmentWait
  | waitsForAttachmentCleanup
  deriving DecidableEq, Repr

/-- pkg/driver/hook/prestop.go: hook.PreStop, up to the decision of whether
to run waitForVolumeAttachmentsCleanup (the wait itself is event-driven and
not embedded).  In the not-found case the drain check runs on the empty
node object client-go returned alongside the error. -/
def preStopAction (res : GetNodeResult) : PreStopAction :=
  match res with
  | .otherErr msg => .returnsErr msg
  | .notFoundErr =>
    if isNodeDrained { taints := [] } then .waitsForAttachmentCleanup
    else .skipsAttachmentWait
  | .found node =>
    if isNodeDrained node then .waitsForAttachmentCleanup
    else .skipsAttachmentWait

/-- The DiskHotPlugger call results NodeStageVolume can observe.  The
results of Format and Mount appear here although the source discards them
(the wildcard matches in nodeStageVolume below). -/
structure StageEnv where
  pathForVolume : String
  isFormatted : Except String Bool
  format : Except String Unit
  isMounted : Except String Bool
  mount : Except String Unit

/-- csi.NodeStageVolumeRequest fields read by the handler. -/
structure NodeStageVolumeRequest where
  volumeId : String
  stagingTargetPath : String
  hasVolumeCapability : Bool
  deriving DecidableEq, Repr

/-- NodeStageVolume of the node server built on DiskHotPlugger.PathForVolume
(the node_server.go revision that also implements NodeGetVolumeStats): the
error results of DiskHotPlugger.Format and DiskHotPlugger.Mount are
discarded.  Returns the outcome plus flags recording whether Format and
Mount were invoked. -/
def nodeStageVolume (env : StageEnv) (req : NodeStageVolumeRequest) :
    Outcome Unit × Bool × Bool :=
  if req.volumeId = "" then
    (.err (.grpcStatus .invalidArgument "must provide a VolumeId to NodeStageVolume"), false, false)
  else if req.stagingTargetPath = "" then
    (.err (.grpcStatus .invalidArgument "must provide a StagingTargetPath to NodeStageVolume"), false, false)
  else if ¬ req.hasVolumeCapability then
    (.err (.grpcStatus .invalidArgument "must provide a VolumeCapability to NodeStageVolume"), false, false)
  else if env.pathForVolume = "" then
    (.err (.grpcStatus .notFound "path to volume (/dev/disk/by-id/VOLUME_ID) not found"), false, false)
  else
    match env.isFormatted with
    | .error e => (.err (.plain e), false, false)
    | .ok formatted =>
      match (if ¬ formatted then some env.format else none) with
      | _ =>
        match env.isMounted with
        | .error e => (.err (.plain e), ¬ formatted, false)
        | .ok mounted =>
          match (if ¬ mounted then some env.mount else none) with
          | _ => (.ok (), ¬ formatted, ¬ mounted)

/-! Concrete inputs used by the theorems and witnesses below. -/

/-- A volume the provider reports as mid-attach on node-1. -/
def c1Volume : Volume :=
  { id := "vol-1", name := "pv-1", sizeGigabytes := 10, status := "attaching",
    instanceID := "node-1", clusterID := "cluster-1" }

/-- Call results for a publish of c1Volume onto node-1. -/
def c1Env : PublishEnv :=
  { clusterInstances := .ok ["node-1"], getVolume := .ok c1Volume,
    attachVolume := .ok (), refetchVolume := .ok { c1Volume with status := "attached" } }

/-- The publish request targeting the node the volume is attaching to. -/
def c1Req : ControllerPublishVolumeRequest :=
  { volumeId := "vol-1", nodeId := "node-1", hasVolumeCapability := true }

/-- A production-mode driver configuration. -/
def prodDriver : Driver :=
  { region := "LON1", namespaceField := "default", clusterID := "cluster-1", testMode := false }

/-- A volume that never leaves the creating state. -/
def c2Volume : Volume :=
  { id := "vol-2", name := "pv-2", sizeGigabytes := 10, status := "creating",
    instanceID := "", clusterID := "cluster-1" }

/-- Call results for a create whose settlement polls always see creating. -/
def c2Env : CreateEnv :=
  { listVolumes := .ok [],
    getQuota := .ok { diskGigabytesLimit := 100, diskGigabytesUsage := 0,
                      diskVolumeCountLimit := 10, diskVolumeCountUsage := 0 },
    newVolume := fun _ => .ok c2Volume,
    getVolume := fun _ => .ok c2Volume,
    pollVolume := fun _ _ => .ok c2Volume }

/-- A well-formed create request for a mount volume with no capacity range. -/
def c2Req : CreateVolumeRequest :=
  { name := "pv-2",
    volumeCapabilities := [{ accessMode := .singleNodeWriter, isBlock := false }],
    capacityRange := none, contentSource := .absent }

/-- A cluster-owned provider volume whose name matches no PersistentVolume. -/
def c3Volume : Volume :=
  { id := "vol-3", name := "pv-orphan", sizeGigabytes := 10, status := "available",
    instanceID := "", clusterID := "cluster-1" }

/-- A reconciler tick observing one provider volume and one PV of a different
name, so the two lists have equal length. -/
def c3Env : HangingEnv :=
  { listVolumes := .ok [c3Volume], listPVNames := .ok ["other-pv"],
    deleteVolume := fun _ => .ok () }

/-- A delete oracle that fails on vol-a and succeeds elsewhere. -/
def c8Delete : String → Except CivoErr Unit :=
  fun id => if id = "vol-a" then .error (.other "delete failed") else .ok ()

/-- A volume attached to node-2 while the unpublish request names node-1. -/
def c6Volume : Volume :=
  { id := "vol-6", name := "pv-6", sizeGigabytes := 10, status := "attached",
    instanceID := "node-2", clusterID := "cluster-1" }

/-- Call results for an unpublish against c6Volume. -/
def c6Env : UnpublishEnv :=
  { getVolume := .ok c6Volume, detachVolume := .ok (), refetchVolume := .ok c6Volume }

/-- The unpublish request naming a node the volume is not attached to. -/
def c6Req : ControllerUnpublishVolumeRequest := { volumeId := "vol-6", nodeId := "node-1" }

/-- Plugger results where the probes succeed (unformatted, unmounted) but
both the format and the mount operation themselves fail. -/
def c9Env : StageEnv :=
  { pathForVolume := "/dev/disk/by-id/vol-9", isFormatted := .ok false,
    format := .error "device busy", isMounted := .ok false,
    mount := .error "operation not permitted" }

/-- A well-formed stage request. -/
def c9Req : NodeStageVolumeRequest :=
  { volumeId := "vol-9", stagingTargetPath := "/staging/vol-9", hasVolumeCapability := true }

/-- An available 10 GiB volume to be expanded. -/
def c10Volume : Volume :=
  { id := "vol-10", name := "pv-10", sizeGigabytes := 10, status := "available",
    instanceID := "", clusterID := "cluster-1" }

/-- Call results where the provider rejects the resize but every read still
sees the unchanged available volume. -/
def c10Env : ExpandEnv :=
  { getVolume := .ok c10Volume, resizeVolume := .error (.other "resize rejected"),
    pollVolume := fun _ => .ok c10Volume, refetchVolume := .ok c10Volume }

/-- An expand request asking for 20 GiB. -/
def c10Req : ControllerExpandVolumeRequest :=
  { volumeId := "vol-10",
    capacityRange := some { requiredBytes := 21474836480, limitBytes := 0 } }

/-- A create request for a 25 GiB mount volume named pv-5. -/
def c5Req : CreateVolumeRequest :=
  { name := "pv-5",
    volumeCapabilities := [{ accessMode := .singleNodeWriter, isBlock := false }],
    capacityRange := some { requiredBytes := 26843545600, limitBytes := 0 },
    contentSource := .absent }

/-- The volume as returned by the create call, before settling. -/
def c5Created : Volume :=
  { id := "vol-5", name := "pv-5", sizeGigabytes := 25, status := "creating",
    instanceID := "", clusterID := "cluster-1" }

/-- The same volume once it has settled at status available. -/
def c5Available : Volume := { c5Created with status := "available" }

/-- A quota with plenty of head-room. -/
def c5Quota : Quota :=
  { diskGigabytesLimit := 100, diskGigabytesUsage := 0,
    diskVolumeCountLimit := 10, diskVolumeCountUsage := 0 }

/-- Call results for the first create: nothing listed yet, create succeeds,
settle polls see the available volume. -/
def c5Env1 : CreateEnv :=
  { listVolumes := .ok [], getQuota := .ok c5Quota,
    newVolume := fun _ => .ok c5Created, getVolume := fun _ => .ok c5Created,
    pollVolume := fun _ _ => .ok c5Available }

/-- Call results for the retried create: the settled volume is listed under
its name. -/
def c5Env2 : CreateEnv :=
  { listVolumes := .ok [c5Available], getQuota := .ok c5Quota,
    newVolume := fun _ => .ok c5Created, getVolume := fun _ => .ok c5Created,
    pollVolume := fun _ _ => .ok c5Available }

/-- A create request whose required bytes are one over 25 GiB, so the size
rounds up to 26 GiB. -/
def c7Req : CreateVolumeRequest :=
  { name := "pv-7",
    volumeCapabilities := [{ accessMode := .singleNodeReaderOnly, isBlock := false }],
    capacityRange := some { requiredBytes := 26843545601, limitBytes := 0 },
    contentSource := .absent }

/-- The 26 GiB volume the provider creates for c7Req. -/
def c7Volume : Volume :=
  { id := "vol-7", name := "pv-7", sizeGigabytes := 26, status := "available",
    instanceID := "", clusterID := "cluster-1" }

/-- Call results under which c7Req succeeds immediately. -/
def c7Env : CreateEnv :=
  { listVolumes := .ok [], getQuota := .ok c5Quota,
    newVolume := fun _ => .ok c7Volume, getVolume := fun _ => .ok c7Volume,
    pollVolume := fun _ _ => .ok c7Volume }

/-- The response CreateVolume produces for c7Req: 26 GiB in bytes. -/
def c7Resp : CreateVolumeResponse :=
  { volumeId := "vol-7", capacityBytes := 27917287424 }

/-! Helper lemmas shared by several claims. -/

/-- When the i-th poll already returns the desired status, the settlement
loop reports reached. -/
theorem waitLoop_reached (getVolume : Nat → Except CivoErr Volume) (s : String)
    (fuel i : Nat) (last : Option String) (v : Volume)
    (hg : getVolume i = .ok v) (hv : v.status = s) :
    waitLoop getVolume s (fuel + 1) i last = .reached := by
  simp [waitLoop, hg, hv]

/-- The Go rounding never under-allocates: bytes fit in desiredSizeGB
gigabytes. -/
theorem desiredSizeGB_ge (b : Int) (hb : 0 ≤ b) :
    b ≤ desiredSizeGB b * BytesInGigabyte := by
  unfold desiredSizeGB BytesInGigabyte
  rw [Int.tdiv_eq_ediv hb (by norm_num), Int.tmod_eq_emod hb (by norm_num)]
  split <;> omega

/-- The Go rounding never over-allocates by a full gigabyte. -/
theorem desiredSizeGB_lt (b : Int) (hb : 0 ≤ b) :
    (desiredSizeGB b - 1) * BytesInGigabyte < b := by
  unfold desiredSizeGB BytesInGigabyte
  rw [Int.tdiv_eq_ediv hb (by norm_num), Int.tmod_eq_emod hb (by norm_num)]
  split <;> omega

/-- For non-negative byte counts the Go truncating-division-plus-remainder
computation is exactly the ceiling of bytes / GiB. -/
theorem desiredSizeGB_eq_ceil (b : Int) (hb : 0 ≤ b) :
    desiredSizeGB b = ⌈(b : ℚ) / (BytesInGigabyte : ℚ)⌉ := by
  have hg : (0 : ℚ) < (BytesInGigabyte : ℚ) := by norm_num [BytesInGigabyte]
  symm
  rw [Int.ceil_eq_iff]
  constructor
  · rw [lt_div_iff₀ hg]
    exact_mod_cast desiredSizeGB_lt b hb
  · rw [div_le_iff₀ hg]
    exact_mod_cast desiredSizeGB_ge b hb

/-! Theorems settling the claims. -/

/-- C1: for a freshly fetched volume with status attaching whose instance is
the requested node, the source nevertheless issues the AttachVolume call:
the skip condition is InstanceID == NodeId && Status != "attaching",
inverted against the comment that labels its branch "already attaching".
The claimed behaviour (no attach call) is therefore false at this input. -/
theorem c1_attaching_on_requested_node_still_attaches :
    (controllerPublishVolume c1Env c1Req).2 = true
    ∧ c1Volume.status = "attaching" ∧ c1Volume.instanceID = c1Req.nodeId :=
  ⟨rfl, rfl, rfl⟩

/-- C2: when the CreateVolume settlement loop exhausts its 20 polls (every
poll succeeding but reporting status creating), the RPC returns the plain
fmt.Errorf error from waitForVolumeStatus — not a gRPC status error with
code Unavailable; the codes.Unavailable mapping in CreateVolume is
unreachable because the wait never returns (false, nil).  The last-seen
status is embedded in the plain message. -/
theorem c2_exhaustion_returns_plain_error_not_unavailable :
    createVolume prodDriver c2Env c2Req
      = (.err (.plain "volume isn't available, state is currently creating"), true) := by
  rfl

/-- C4: when the node read fails with not-found, PreStop runs the drain
check on the empty node object client-go returned with the error, finds no
drain taint, and returns immediately — it does not proceed to the
volume-attachment wait the claim (and the source's own log message about
assuming a termination event) describes. -/
theorem c4_node_not_found_skips_attachment_wait :
    preStopAction .notFoundErr = .skipsAttachmentWait := rfl

/-- C3 counterexample: a tick where a cluster-owned provider volume matches
no PersistentVolume name, yet no delete is requested, because the provider
volume count equals the PV count and the source only computes orphans when
the two counts differ. -/
theorem c3_counterexample_equal_counts_no_delete :
    c3Volume.clusterID = "cluster-1" ∧ c3Volume.name ≠ "other-pv"
    ∧ (fixHangingVolume "cluster-1" c3Env).2 = [] :=
  ⟨rfl, by decide, rfl⟩

/-- C8 counterexample: with two orphans queued and the first delete failing,
FixHangingVolume returns the error at once: the second orphan is never
attempted, so the sweep does not continue past an individual failure. -/
theorem c8_counterexample_first_failure_aborts_tick :
    deleteHangingVolumes c8Delete ["vol-a", "vol-b"]
      = (["vol-a"], some (.other "delete failed")) := rfl

/-- C3 amended: an orphan delete is queued iff the provider-volume and
PersistentVolume counts differ AND the volume is owned by this cluster with
no PV of its name; with equal counts nothing is queued even when such
orphans exist. -/
theorem c3_amended_orphan_selection (clusterID : String) (volumes : List Volume)
    (pvNames : List String) (id : String) :
    id ∈ hangingVolumeIDsToDelete clusterID volumes pvNames
      ↔ pvNames.length ≠ volumes.length
        ∧ ∃ v ∈ volumes, v.id = id ∧ v.clusterID = clusterID ∧ v.name ∉ pvNames := by
  unfold hangingVolumeIDsToDelete
  split
  · rename_i hlen
    simp only [List.mem_map, List.mem_filter, decide_eq_true_eq]
    constructor
    · rintro ⟨v, ⟨hv, hcond⟩, hid⟩
      refine ⟨hlen, v, hv, hid, ?_, ?_⟩
      · exact hcond.2
      · intro hmem
        exact hcond.1 (List.elem_eq_true_of_mem hmem)
    · rintro ⟨-, v, hv, hid, hcl, hname⟩
      refine ⟨v, ⟨hv, ?_, hcl⟩, hid⟩
      intro hcontains
      exact hname (List.mem_of_elem_eq_true hcontains)
  · rename_i hlen
    simp only [List.not_mem_nil, false_iff, not_and]
    intro h
    exact absurd h (by simpa using hlen)

/-- C8 amended: the deletion sweep runs through the successful prefix and
returns the first failing orphan's error at once; the orphans after the
failing one are not attempted on this tick. -/
theorem c8_amended_abort_at_first_failure (deleteVolume : String → Except CivoErr Unit)
    (xs ys : List String) (x : String) (e : CivoErr)
    (hok : ∀ y ∈ xs, deleteVolume y = .ok ())
    (hx : deleteVolume x = .error e) :
    deleteHangingVolumes deleteVolume (xs ++ x :: ys) = (xs ++ [x], some e) := by
  induction xs with
  | nil => simp [deleteHangingVolumes, hx]
  | cons a as ih =>
    have ha : deleteVolume a = .ok () := hok a (by simp)
    have ih2 := ih (fun y hy => hok y (by simp [hy]))
    simp [deleteHangingVolumes, ha, ih2]

/-- C8 amended, witness: a concrete sweep with a successful delete, then a
failing one, then an unattempted orphan. -/
theorem c8_amended_witness :
    deleteHangingVolumes c8Delete (["vol-z"] ++ "vol-a" :: ["vol-c"])
      = (["vol-z"] ++ ["vol-a"], some (.other "delete failed")) :=
  c8_amended_abort_at_first_failure c8Delete ["vol-z"] ["vol-c"] "vol-a"
    (.other "delete failed")
    (by intro y hy
        simp only [List.mem_singleton] at hy
        subst hy
        rfl)
    rfl

/-- C6: an unpublish naming a node other than the one a non-available
volume is attached to returns success and issues no DetachVolume call. -/
theorem c6_unpublish_wrong_node_success_no_detach
    (env : UnpublishEnv) (req : ControllerUnpublishVolumeRequest) (v : Volume)
    (hid : req.volumeId ≠ "")
    (hget : env.getVolume = .ok v)
    (hstatus : v.status ≠ "available")
    (hnode : v.instanceID ≠ req.nodeId) :
    controllerUnpublishVolume env req = (.ok (), false) := by
  simp [controllerUnpublishVolume, hid, hget, hstatus, hnode]

/-- C6 witness: the volume is attached to node-2, the request names node-1;
the call succeeds without detaching. -/
theorem c6_unpublish_wrong_node_witness :
    controllerUnpublishVolume c6Env c6Req = (.ok (), false) :=
  c6_unpublish_wrong_node_success_no_detach c6Env c6Req c6Volume
    (by decide) rfl (by decide) (by decide)

/-- C9: once validation passes, the device path resolves and the two probes
succeed, NodeStageVolume returns success whatever the Format and Mount
calls return — their error results are discarded by the source. -/
theorem c9_stage_success_despite_format_mount_errors
    (env : StageEnv) (req : NodeStageVolumeRequest) (b1 b2 : Bool)
    (hv : req.volumeId ≠ "") (hs : req.stagingTargetPath ≠ "")
    (hc : req.hasVolumeCapability = true) (hp : env.pathForVolume ≠ "")
    (hf : env.isFormatted = .ok b1) (hm : env.isMounted = .ok b2) :
    (nodeStageVolume env req).1 = .ok () := by
  simp [nodeStageVolume, hv, hs, hc, hp, hf, hm]

/-- C9 witness: format and mount both fail, the RPC still succeeds. -/
theorem c9_stage_witness : (nodeStageVolume c9Env c9Req).1 = .ok () :=
  c9_stage_success_despite_format_mount_errors c9Env c9Req false false
    (by decide) (by decide) rfl (by decide) rfl rfl

/-- C10: on an available volume with a growth request, a failing
ResizeVolume call is invisible to the handler — the settle loop sees the
unchanged available volume and the RPC returns success with the old
size_gb times 2^30. -/
theorem c10_expand_success_despite_resize_error
    (d : Driver) (env : ExpandEnv) (req : ControllerExpandVolumeRequest)
    (v : Volume) (cr : CapacityRange) (e : CivoErr)
    (hmode : d.testMode = false)
    (hid : req.volumeId ≠ "")
    (hget : env.getVolume = .ok v)
    (hcr : req.capacityRange = some cr)
    (hstatus : v.status = "available")
    (hgrow : v.sizeGigabytes < desiredSizeGB (getVolSizeInBytes (some cr)))
    (hresize : env.resizeVolume = .error e)
    (hpoll : env.pollVolume 0 = .ok v)
    (hre : env.refetchVolume = .ok v) :
    controllerExpandVolume d env req
      = (.ok { capacityBytes := v.sizeGigabytes * BytesInGigabyte, nodeExpansionRequired := true }, true) := by
  have hwait : waitForVolumeStatus d env.pollVolume "available" (CivoVolumeAvailableRetries * 2) = .reached := by
    rw [waitForVolumeStatus, hmode]
    simpa using waitLoop_reached env.pollVolume "available" 39 0 none v hpoll hstatus
  have hns : v.status ≠ "resizing" := by rw [hstatus]; decide
  simp [controllerExpandVolume, hid, hget, hcr, hstatus, hns, not_le.mpr hgrow, hwait, hre]

/-- C10 witness: the provider rejects the resize of the available 10 GiB
volume; the RPC succeeds reporting the unchanged 10 GiB. -/
theorem c10_expand_witness :
    controllerExpandVolume prodDriver c10Env c10Req
      = (.ok { capacityBytes := c10Volume.sizeGigabytes * BytesInGigabyte, nodeExpansionRequired := true }, true) :=
  c10_expand_success_despite_resize_error prodDriver c10Env c10Req c10Volume
    { requiredBytes := 21474836480, limitBytes := 0 } (.other "resize rejected")
    rfl (by decide) rfl rfl rfl (by decide) rfl rfl rfl

/-- C5: a successful CreateVolume for name X followed by a second
CreateVolume for the same name and size — with the created volume settled
at status available and listed by the provider — returns the same id from
both calls, and NewVolume is issued on the first call only. -/
theorem c5_create_create_idempotent
    (d : Driver) (env1 env2 : CreateEnv) (req : CreateVolumeRequest)
    (q : Quota) (created vol pv1 listed : Volume)
    (hmode : d.testMode = false)
    (hname : req.name ≠ "")
    (hcaps : req.volumeCapabilities ≠ [])
    (hcapok : checkCapabilities req.volumeCapabilities = none)
    (hsrc : req.contentSource = .absent)
    (hlist1 : env1.listVolumes = .ok [])
    (hquota : env1.getQuota = .ok q)
    (hq1 : ¬ q.diskGigabytesLimit - q.diskGigabytesUsage < desiredSizeGB (getVolSizeInBytes req.capacityRange))
    (hq2 : ¬ q.diskVolumeCountUsage ≥ q.diskVolumeCountLimit)
    (hnew : env1.newVolume { name := req.name, region := d.region, namespaceField := d.namespaceField, clusterID := d.clusterID, sizeGigabytes := desiredSizeGB (getVolSizeInBytes req.capacityRange), snapshotID := "" } = .ok created)
    (hget : env1.getVolume created.id = .ok vol)
    (hpoll1 : env1.pollVolume vol.id 0 = .ok pv1)
    (hpv1 : pv1.status = "available")
    (hlist2 : env2.listVolumes = .ok [listed])
    (hlname : listed.name = req.name)
    (hlid : listed.id = vol.id)
    (hlsize : listed.sizeGigabytes = desiredSizeGB (getVolSizeInBytes req.capacityRange))
    (hpoll2 : env2.pollVolume listed.id 0 = .ok listed)
    (hlstatus : listed.status = "available") :
    createVolume d env1 req
        = (.ok { volumeId := vol.id, capacityBytes := desiredSizeGB (getVolSizeInBytes req.capacityRange) * BytesInGigabyte }, true)
    ∧ createVolume d env2 req
        = (.ok { volumeId := vol.id, capacityBytes := desiredSizeGB (getVolSizeInBytes req.capacityRange) * BytesInGigabyte }, false) := by
  have hwait1 : waitForVolumeStatus d (env1.pollVolume vol.id) "available" CivoVolumeAvailableRetries = .reached := by
    rw [waitForVolumeStatus, hmode]
    simpa using waitLoop_reached (env1.pollVolume vol.id) "available" 19 0 none pv1 hpoll1 hpv1
  have hpoll2v : env2.pollVolume vol.id 0 = .ok listed := by rw [← hlid]; exact hpoll2
  have hwait2 : waitForVolumeStatus d (env2.pollVolume vol.id) "available" CivoVolumeAvailableRetries = .reached := by
    rw [waitForVolumeStatus, hmode]
    simpa using waitLoop_reached (env2.pollVolume vol.id) "available" 19 0 none listed hpoll2v hlstatus
  constructor
  · simp [createVolume, hname, hcaps, hcapok, hsrc, hlist1, hquota, hq1, hq2,
      snapshotIDFromSource, hnew, hget, hwait1]
  · simp [createVolume, hname, hcaps, hcapok, hlist2, List.find?, hlname, hlsize,
      hwait2, hlid]

/-- C5 witness: the concrete create-then-create run on pv-5 returns vol-5
twice, with NewVolume called only on the first run. -/
theorem c5_create_create_witness :
    createVolume prodDriver c5Env1 c5Req
        = (.ok { volumeId := c5Created.id, capacityBytes := desiredSizeGB (getVolSizeInBytes c5Req.capacityRange) * BytesInGigabyte }, true)
    ∧ createVolume prodDriver c5Env2 c5Req
        = (.ok { volumeId := c5Created.id, capacityBytes := desiredSizeGB (getVolSizeInBytes c5Req.capacityRange) * BytesInGigabyte }, false) :=
  c5_create_create_idempotent prodDriver c5Env1 c5Env2 c5Req c5Quota c5Created c5Created
    c5Available c5Available rfl (by decide) (by decide) rfl rfl rfl rfl (by decide) (by decide)
    rfl rfl rfl rfl rfl rfl rfl (by decide) rfl rfl

/-- C7: the desired size is 10 GiB when the capacity range is absent and
otherwise the ceiling of bytes / 2^30 with bytes = required_bytes (falling
back to limit_bytes when required is zero), and every successful
CreateVolume response reports exactly that GiB count times 2^30 bytes. -/
theorem c7_create_size_is_ceiling
    (d : Driver) (env : CreateEnv) (req : CreateVolumeRequest)
    (resp : CreateVolumeResponse) (created : Bool)
    (hbytes : 0 ≤ getVolSizeInBytes req.capacityRange)
    (hok : createVolume d env req = (.ok resp, created)) :
    (req.capacityRange = none → desiredSizeGB (getVolSizeInBytes req.capacityRange) = 10)
    ∧ (∀ cr, req.capacityRange = some cr →
        desiredSizeGB (getVolSizeInBytes req.capacityRange)
          = ⌈(((if cr.requiredBytes = 0 then cr.limitBytes else cr.requiredBytes : Int)) : ℚ) / (BytesInGigabyte : ℚ)⌉)
    ∧ BytesInGigabyte = 1073741824
    ∧ resp.capacityBytes = desiredSizeGB (getVolSizeInBytes req.capacityRange) * BytesInGigabyte := by
  refine ⟨?_, ?_, by norm_num [BytesInGigabyte], ?_⟩
  · intro h
    rw [h]
    decide
  · intro cr hcr
    rw [hcr] at hbytes ⊢
    exact desiredSizeGB_eq_ceil _ hbytes
  · simp only [createVolume] at hok
    repeat' split at hok
    all_goals simp_all
    all_goals (obtain ⟨h1, h2⟩ := hok; subst h1; rfl)

/-- C7 witness: a request of 25 GiB + 1 byte rounds up to a 26 GiB volume
reported as 27917287424 bytes. -/
theorem c7_create_size_witness :
    (c7Req.capacityRange = none → desiredSizeGB (getVolSizeInBytes c7Req.capacityRange) = 10)
    ∧ (∀ cr, c7Req.capacityRange = some cr →
        desiredSizeGB (getVolSizeInBytes c7Req.capacityRange)
          = ⌈(((if cr.requiredBytes = 0 then cr.limitBytes else cr.requiredBytes : Int)) : ℚ) / (BytesInGigabyte : ℚ)⌉)
    ∧ BytesInGigabyte = 1073741824
    ∧ c7Resp.capacityBytes = desiredSizeGB (getVolSizeInBytes c7Req.capacityRange) * BytesInGigabyte :=
  c7_create_size_is_ceiling prodDriver c7Env c7Req c7Resp true (by decide) (by rfl)

end CivoCSI
